import Mathlib

/-!
Shallow embedding of the capture-to-persistence pipeline of the
Electron-ScreenRecorder repository.

Sources embedded:
- `my-app/src/renderer.js` and its richer variant (the unnamed renderer file
  with transcription wiring): `selectSource`, the start/stop button click
  handlers, `handleDataAvailable`, `handleStop`;
- `my-app/src/main.js`: the `save-video` and `transcribe-audio` IPC handlers.

External collaborators (the W3C `MediaRecorder`, `MediaStream`/tracks, `Blob`,
`Uint8Array`/`Buffer`, `dialog.showSaveDialog`, `fs.writeFile`, `fetch`) are
modelled by their documented contracts: a recorder is a small state machine
whose `start`/`stop` throw `InvalidStateError` when called in the wrong state,
a blob over a chunk list flattens to the concatenation of the chunks' bytes,
and the byte-array conversions on either side of the IPC boundary copy bytes
verbatim.  Outcomes of genuinely external effects (dialog answer, disk write,
HTTP response) are passed in as parameters so that every handler is a total
function of its inputs.
-/

namespace ScreenRecorder

/-- Kind of a media track inside a `MediaStream`. -/
inductive TrackKind
  | video
  | audio
deriving DecidableEq, Repr

/-- One live media track (screen-capture video or microphone audio). -/
structure MediaTrack where
  kind : TrackKind
  trackId : Nat
deriving DecidableEq, Repr

/-- A `MediaStream`: an ordered collection of live tracks. -/
structure MediaStream where
  tracks : List MediaTrack
deriving DecidableEq, Repr

/-- Whether a track is a video track. -/
def isVideoTrack (t : MediaTrack) : Bool :=
  match t.kind with
  | .video => true
  | .audio => false

/-- Whether a track is an audio track. -/
def isAudioTrack (t : MediaTrack) : Bool :=
  match t.kind with
  | .video => false
  | .audio => true

/-- `stream.getVideoTracks()` of the DOM `MediaStream` API. -/
def MediaStream.getVideoTracks (s : MediaStream) : List MediaTrack :=
  s.tracks.filter isVideoTrack

/-- `stream.getAudioTracks()` of the DOM `MediaStream` API. -/
def MediaStream.getAudioTracks (s : MediaStream) : List MediaTrack :=
  s.tracks.filter isAudioTrack

/-- The two `MediaRecorder` states the renderer code distinguishes
(`mediaRecorder.state !== 'inactive'`); pause is never used. -/
inductive RecorderState
  | inactive
  | recording
deriving DecidableEq, Repr

/-- DOM exception raised by `MediaRecorder.start()` / `.stop()` when called in
the wrong state (W3C MediaRecorder: InvalidStateError). -/
inductive DomError
  | invalidState
deriving DecidableEq, Repr

/-- The `options` object passed to `new MediaRecorder(stream, options)` in the
renderer (mimeType plus the two bitrates of the high-quality variant). -/
structure RecorderOptions where
  mimeType : String
  audioBitsPerSecond : Nat
  videoBitsPerSecond : Nat
deriving DecidableEq, Repr

/-- The literal options of the renderer source: `video/webm; codecs=vp9`,
320 kbps audio, 2.5 Mbps video. -/
def recorderOptions : RecorderOptions :=
  { mimeType := "video/webm; codecs=vp9",
    audioBitsPerSecond := 320000,
    videoBitsPerSecond := 2500000 }

/-- A `MediaRecorder` instance: the stream it encodes, its options and its
current state. -/
structure MediaRecorder where
  stream : MediaStream
  options : RecorderOptions
  state : RecorderState
deriving DecidableEq, Repr

/-- `MediaRecorder.start()`: begins recording if inactive, otherwise throws
InvalidStateError (W3C MediaRecorder, step 1 of the start algorithm). -/
def MediaRecorder.start (r : MediaRecorder) : Except DomError MediaRecorder :=
  match r.state with
  | .inactive => .ok { r with state := .recording }
  | .recording => .error .invalidState

/-- `MediaRecorder.stop()`: stops recording if not inactive (state becomes
inactive synchronously), otherwise throws InvalidStateError. -/
def MediaRecorder.stop (r : MediaRecorder) : Except DomError MediaRecorder :=
  match r.state with
  | .inactive => .error .invalidState
  | .recording => .ok { r with state := .inactive }

/-- The renderer's module-level mutable recording state: `mediaRecorder`,
`recordedChunks`, `videoStream`, `audioStream`.  A chunk is a byte list. -/
structure Session where
  mediaRecorder : Option MediaRecorder
  recordedChunks : List (List Nat)
  videoStream : Option MediaStream
  audioStream : Option MediaStream
deriving DecidableEq, Repr

/-- Whether the session is idle (no recorder yet, or recorder inactive);
this is exactly the negation of the stop button's guard
`mediaRecorder && mediaRecorder.state !== 'inactive'`. -/
def Session.isIdle (s : Session) : Bool :=
  match s.mediaRecorder with
  | none => true
  | some r =>
      match r.state with
      | .inactive => true
      | .recording => false

/-- STEP 3 of `selectSource`: `const combinedStream = new MediaStream()` then
add all video tracks of the screen-capture stream and, if the microphone
stream is present, all of its audio tracks. -/
def combineStreams (videoStream : MediaStream) (audioStream : Option MediaStream) :
    MediaStream :=
  { tracks :=
      videoStream.getVideoTracks ++
        (match audioStream with
         | some a => a.getAudioTracks
         | none => []) }

/-- `selectSource`, given the outcomes of the two independent `getUserMedia`
calls (video first, then audio).  Video failure lands in the outer catch:
any streams are stopped and the handles nulled.  Audio failure lands in the
inner catch: `audioStream = null` and the function proceeds video-only,
building the combined stream and a fresh inactive `MediaRecorder`. -/
def selectSource (s : Session) (videoRes : Except String MediaStream)
    (audioRes : Except String MediaStream) : Session :=
  match videoRes with
  | .error _ =>
      { s with videoStream := none, audioStream := none }
  | .ok vs =>
      let audioOpt : Option MediaStream :=
        match audioRes with
        | .ok a => some a
        | .error _ => none
      { s with
        videoStream := some vs,
        audioStream := audioOpt,
        mediaRecorder :=
          some { stream := combineStreams vs audioOpt,
                 options := recorderOptions,
                 state := .inactive } }

/-- The start button click handler: `if (mediaRecorder) { mediaRecorder.start(); ... }`.
The guard checks only that a recorder exists, not its state; an
InvalidStateError from `start()` propagates out of the listener uncaught and
the module state is left untouched (the returned error is the thrown
exception, `none` meaning no exception). -/
def startBtnClick (s : Session) : Session × Option DomError :=
  match s.mediaRecorder with
  | none => (s, none)
  | some r =>
      match r.start with
      | .ok r2 => ({ s with mediaRecorder := some r2 }, none)
      | .error e => (s, some e)

/-- The stop button click handler:
`if (mediaRecorder && mediaRecorder.state !== 'inactive') { mediaRecorder.stop(); ... }`. -/
def stopBtnClick (s : Session) : Session × Option DomError :=
  match s.mediaRecorder with
  | none => (s, none)
  | some r =>
      match r.state with
      | .inactive => (s, none)
      | .recording =>
          match r.stop with
          | .ok r2 => ({ s with mediaRecorder := some r2 }, none)
          | .error e => (s, some e)

/-- `handleDataAvailable(e)`: `recordedChunks.push(e.data)` — appends the new
fragment at the end, preserving arrival order. -/
def handleDataAvailable (recordedChunks : List (List Nat)) (e : List Nat) :
    List (List Nat) :=
  recordedChunks ++ [e]

/-- The finished payload: `new Blob(chunks, { type: mime })` followed by
`blob.arrayBuffer()` — a MIME tag over the concatenation of the chunks. -/
structure EncodedPayload where
  mimeType : String
  bytes : List Nat
deriving DecidableEq, Repr

/-- Build a blob from the ordered chunk list under a declared MIME type; its
byte content is the chunks concatenated in order (Blob semantics). -/
def makeBlob (chunks : List (List Nat)) (mime : String) : EncodedPayload :=
  { mimeType := mime, bytes := chunks.flatten }

/-- A contiguous binary buffer (`ArrayBuffer` in the renderer / `Buffer` in the
main process): just its bytes. -/
structure ByteBuffer where
  data : List Nat
deriving DecidableEq, Repr

/-- Sending side of the IPC boundary: `new Uint8Array(arrayBuffer)` — the
buffer flattened to a plain indexable byte sequence, copied verbatim. -/
def bufferToTransportSequence (b : ByteBuffer) : List Nat :=
  b.data

/-- Receiving side of the IPC boundary: `Buffer.from(bytes)` — the byte
sequence reconstituted into a binary buffer, copied verbatim. -/
def transportSequenceToBuffer (xs : List Nat) : ByteBuffer :=
  { data := xs }

/-- Failure of `fs.writeFile` in the main process. -/
inductive WriteError
  | writeFailed
deriving DecidableEq, Repr

/-- The `save-video` IPC handler of `main.js`:
`showSaveDialog` yields `filePath` (modelled as `dialogPath`, `none` on user
cancel); if a path was chosen the buffer is written there and the path
returned, otherwise the handler returns `null` without touching the disk.
The disk is modelled by `writeFileFn`; the second component of the result is
the list of write operations performed (path and full buffer). -/
def saveVideoHandler (dialogPath : Option String)
    (writeFileFn : String → ByteBuffer → Except WriteError Unit)
    (buffer : ByteBuffer) :
    Except WriteError (Option String) × List (String × ByteBuffer) :=
  match dialogPath with
  | none => (.ok none, [])
  | some p =>
      match writeFileFn p buffer with
      | .ok _ => (.ok (some p), [(p, buffer)])
      | .error e => (.error e, [(p, buffer)])

/-- Outcome of the `fetch` call to `POST /api/stt` as seen by the
`transcribe-audio` handler: an HTTP response (OK with a parsed
`{ transcript }` body, or non-success with the server's
`{ error, details? }` body), or a transport-level rejection with no
response. -/
inductive FetchOutcome
  | success (status : Nat) (transcript : String)
  | failure (status : Nat) (errorMsg : String) (details : Option String)
  | transportFail (message : String)
deriving DecidableEq, Repr

/-- What the `transcribe-audio` handler throws: the hand-built
`Error('HTTP error! status: ' + status)` on a non-OK response, or the
rethrown transport error when `fetch` itself rejected. -/
inductive TranscribeError
  | httpStatus (status : Nat)
  | transport (message : String)
deriving DecidableEq, Repr

/-- The `transcribe-audio` IPC handler of `main.js`: on `response.ok` it
parses and returns the transcript; on a non-OK status it throws an error
carrying the status (the server body is never read on this path); on a
transport failure it logs and rethrows the underlying error. -/
def transcribeAudioHandler (outcome : FetchOutcome) : Except TranscribeError String :=
  match outcome with
  | .success _ t => .ok t
  | .failure st _ _ => .error (.httpStatus st)
  | .transportFail m => .error (.transport m)

/-- Observable effects of one run of `handleStop` (the `mediaRecorder.onstop`
handler of the transcription-enabled renderer). -/
structure StopTrace where
  videoPayload : EncodedPayload
  savedPath : Option String
  saveAttempted : Bool
  saveFailed : Bool
  audioPayload : Option EncodedPayload
  transcriptionAttempted : Bool
  transcriptionFailed : Bool
  tracksCleaned : Bool
  finalSession : Session
deriving DecidableEq, Repr

/-- `handleStop`: build the video blob from `recordedChunks` and hand it to
`saveVideo` inside its own try/catch; then, only `if (audioStream)`, build the
audio blob from the same `recordedChunks` (tagged `audio/webm`) and hand it to
`transcribeAudio` inside its own try/catch; finally — unconditionally, because
both catches confine their branch's failure — stop every track of both
streams, null the handles and clear `recordedChunks`.  The outcomes of the two
awaited IPC calls are passed in as parameters. -/
def handleStop (s : Session)
    (saveOutcome : Except WriteError (Option String))
    (transcribeOutcome : Except TranscribeError String) : StopTrace :=
  { videoPayload := makeBlob s.recordedChunks "video/webm; codecs=vp9",
    savedPath :=
      (match saveOutcome with
       | .ok p => p
       | .error _ => none),
    saveAttempted := true,
    saveFailed :=
      (match saveOutcome with
       | .ok _ => false
       | .error _ => true),
    audioPayload :=
      (match s.audioStream with
       | some _ => some (makeBlob s.recordedChunks "audio/webm")
       | none => none),
    transcriptionAttempted :=
      (match s.audioStream with
       | some _ => true
       | none => false),
    transcriptionFailed :=
      (match s.audioStream with
       | some _ =>
           (match transcribeOutcome with
            | .ok _ => false
            | .error _ => true)
       | none => false),
    tracksCleaned := true,
    finalSession :=
      { s with videoStream := none, audioStream := none, recordedChunks := [] } }

/-- A concrete screen-capture video track. -/
def sampleVideoTrack : MediaTrack :=
  { kind := TrackKind.video, trackId := 0 }

/-- A concrete microphone audio track. -/
def sampleAudioTrack : MediaTrack :=
  { kind := TrackKind.audio, trackId := 1 }

/-- A concrete screen-capture stream. -/
def sampleVideoStream : MediaStream :=
  { tracks := [sampleVideoTrack] }

/-- A session with no recorder and no streams (the initial module state). -/
def idleSession : Session :=
  { mediaRecorder := none, recordedChunks := [], videoStream := none,
    audioStream := none }

/-- A concrete recorder currently recording. -/
def recordingRecorder : MediaRecorder :=
  { stream := { tracks := [sampleVideoTrack] },
    options := recorderOptions,
    state := RecorderState.recording }

/-- A concrete session in the Recording state (video-only). -/
def recordingSession : Session :=
  { mediaRecorder := some recordingRecorder,
    recordedChunks := [[65]],
    videoStream := some sampleVideoStream,
    audioStream := none }

/-- A concrete session in the Recording state with a microphone stream. -/
def audioSession : Session :=
  { mediaRecorder :=
      some { stream := { tracks := [sampleVideoTrack, sampleAudioTrack] },
             options := recorderOptions,
             state := RecorderState.recording },
    recordedChunks := [[65], [66]],
    videoStream := some sampleVideoStream,
    audioStream := some { tracks := [sampleAudioTrack] } }

/-- A disk stub whose writes always succeed. -/
def constWriteOk : String → ByteBuffer → Except WriteError Unit :=
  fun _ _ => Except.ok ()

/-- Filtering the video tracks of a stream leaves no audio tracks. -/
theorem filter_isAudioTrack_of_isVideoTrack (ts : List MediaTrack) :
    List.filter isAudioTrack (List.filter isVideoTrack ts) = [] := by
  induction ts with
  | nil => rfl
  | cons t rest ih =>
      cases h : t.kind <;>
        simp [List.filter, isVideoTrack, isAudioTrack, h, ih]

/-- Accumulating fragments with `handleDataAvailable` from any starting list
yields that list followed by the fragments in arrival order. -/
theorem foldl_handleDataAvailable (fs : List (List Nat)) :
    ∀ acc, List.foldl handleDataAvailable acc fs = acc ++ fs := by
  induction fs with
  | nil => intro acc; simp
  | cons f rest ih => intro acc; simp [List.foldl, handleDataAvailable, ih]

/-- Claim C1: when video acquisition succeeds and microphone audio acquisition
fails, the failure is non-fatal — the audio handle is set to `none`, the
composed stream holds exactly the video tracks of the screen-capture stream
and zero audio tracks, and a subsequent start click raises no error and puts
the session in the Recording state. -/
theorem audio_failure_is_non_fatal (s : Session) (vs : MediaStream) (err : String) :
    (selectSource s (Except.ok vs) (Except.error err)).audioStream = none ∧
    (∃ r, (selectSource s (Except.ok vs) (Except.error err)).mediaRecorder = some r ∧
      r.stream.tracks = vs.getVideoTracks ∧
      r.stream.getAudioTracks = [] ∧
      r.state = RecorderState.inactive) ∧
    (startBtnClick (selectSource s (Except.ok vs) (Except.error err))).2 = none ∧
    (∃ r2,
      (startBtnClick (selectSource s (Except.ok vs) (Except.error err))).1.mediaRecorder
        = some r2 ∧
      r2.state = RecorderState.recording) := by
  refine ⟨rfl, ⟨_, rfl, ?_, ?_, rfl⟩, rfl, ⟨_, rfl, rfl⟩⟩
  · simp [combineStreams]
  · simp only [combineStreams, MediaStream.getAudioTracks,
      MediaStream.getVideoTracks, List.append_nil]
    exact filter_isAudioTrack_of_isVideoTrack vs.tracks

/-- Claim C2: the payload assembled on stop is the concatenation of the
fragments in arrival order — accumulation via `handleDataAvailable` preserves
the arrival sequence, the blob's bytes are the flattened fragments, its length
is the sum of the fragment lengths, and fragments `[A], [B], [C]` flatten to
`A B C`. -/
theorem chunks_concatenate_in_order (fs : List (List Nat)) (mime : String) :
    List.foldl handleDataAvailable [] fs = fs ∧
    (makeBlob fs mime).bytes = fs.flatten ∧
    (makeBlob fs mime).bytes.length = (fs.map List.length).sum ∧
    (makeBlob [[65], [66], [67]] mime).bytes = [65, 66, 67] := by
  refine ⟨?_, rfl, ?_, rfl⟩
  · simpa using foldl_handleDataAvailable fs []
  · simp [makeBlob, List.length_flatten]

/-- Claim C3: crossing the process boundary is lossless and byte-exact in both
directions — buffer → transport sequence → buffer and transport sequence →
buffer → transport sequence are both identities, in particular at lengths 0,
1 and 10000. -/
theorem transport_roundtrip (x : ByteBuffer) (xs : List Nat) :
    transportSequenceToBuffer (bufferToTransportSequence x) = x ∧
    bufferToTransportSequence (transportSequenceToBuffer xs) = xs ∧
    bufferToTransportSequence (transportSequenceToBuffer []) = [] ∧
    bufferToTransportSequence (transportSequenceToBuffer [200]) = [200] ∧
    transportSequenceToBuffer
        (bufferToTransportSequence { data := List.replicate 10000 42 }) =
      { data := List.replicate 10000 42 } :=
  ⟨rfl, rfl, rfl, rfl, rfl⟩

/-- Claim C4: stop on an idle session is a no-op and not an error; a stop
click never raises, a second stop right after any stop neither raises nor
transitions, and a stop from a non-idle session performs exactly one terminal
transition (the session is idle afterwards). -/
theorem stop_on_idle_is_noop (s : Session) :
    (s.isIdle = true → stopBtnClick s = (s, none)) ∧
    (stopBtnClick s).2 = none ∧
    stopBtnClick (stopBtnClick s).1 = ((stopBtnClick s).1, none) ∧
    (s.isIdle = false → ((stopBtnClick s).1).isIdle = true) := by
  obtain ⟨mr, ch, vstream, astream⟩ := s
  cases mr with
  | none => simp [stopBtnClick, Session.isIdle]
  | some r =>
      obtain ⟨rst, ropts, rstate⟩ := r
      cases rstate with
      | inactive => simp [stopBtnClick, Session.isIdle, MediaRecorder.stop]
      | recording => simp [stopBtnClick, Session.isIdle, MediaRecorder.stop]

/-- Witness for C4: the concrete idle session is left untouched by a stop
click, and a stop click from the concrete recording session leaves the
session idle. -/
theorem stop_on_idle_is_noop_check :
    stopBtnClick idleSession = (idleSession, none) ∧
    ((stopBtnClick recordingSession).1).isIdle = true :=
  ⟨(stop_on_idle_is_noop idleSession).1 rfl,
   (stop_on_idle_is_noop recordingSession).2.2.2 rfl⟩

/-- Claim C5 as stated is false: a second start request while Recording is
NOT error-free — the start button's guard checks only that a recorder exists,
so `MediaRecorder.start()` throws InvalidStateError, which propagates out of
the click handler. -/
theorem second_start_raises_error :
    startBtnClick recordingSession = (recordingSession, some DomError.invalidState) :=
  rfl

/-- Claim C5 amended: a second start request while Recording raises
InvalidStateError from the recorder's start call, but it does not start a
second concurrent encoder and leaves the session — its single recorder, its
state and its accumulated chunks — unchanged. -/
theorem second_start_rejected_with_error (s : Session) (r : MediaRecorder)
    (h1 : s.mediaRecorder = some r) (h2 : r.state = RecorderState.recording) :
    startBtnClick s = (s, some DomError.invalidState) := by
  simp [startBtnClick, h1, MediaRecorder.start, h2]

/-- Witness for the amended C5 at the concrete recording session. -/
theorem second_start_rejected_with_error_check :
    startBtnClick recordingSession = (recordingSession, some DomError.invalidState) :=
  second_start_rejected_with_error recordingSession recordingRecorder rfl rfl

/-- Claim C6: when the save dialog is cancelled the handler returns `null`
(`Except.ok none`), which is distinguishable from every error, and performs no
file write; when a path is chosen and the write succeeds the handler writes
the complete buffer to that path and returns the final path. -/
theorem save_cancellation_returns_null
    (writeFileFn : String → ByteBuffer → Except WriteError Unit)
    (buffer : ByteBuffer) (p : String) (e : WriteError) :
    saveVideoHandler none writeFileFn buffer = (Except.ok none, []) ∧
    (saveVideoHandler none writeFileFn buffer).1 ≠ Except.error e ∧
    (writeFileFn p buffer = Except.ok () →
      saveVideoHandler (some p) writeFileFn buffer =
        (Except.ok (some p), [(p, buffer)])) := by
  refine ⟨rfl, fun hcontra => Except.noConfusion hcontra, fun h => ?_⟩
  simp [saveVideoHandler, h]

/-- Witness for C6: with the always-succeeding disk stub, choosing the path
`out.webm` writes the whole buffer there and returns it. -/
theorem save_cancellation_returns_null_check :
    saveVideoHandler (some "out.webm") constWriteOk { data := [1, 2, 3] } =
      (Except.ok (some "out.webm"), [("out.webm", { data := [1, 2, 3] })]) :=
  (save_cancellation_returns_null constWriteOk { data := [1, 2, 3] } "out.webm"
    WriteError.writeFailed).2.2 rfl

/-- Claim C7 as stated is false: on a non-success status the handler's error
does not carry the server-provided detail — two responses with the same
status but different server details produce the identical thrown error, which
carries only the status. -/
theorem http_error_drops_server_detail :
    transcribeAudioHandler
        (FetchOutcome.failure 500 "Failed to transcribe audio" (some "model overloaded")) =
      transcribeAudioHandler
        (FetchOutcome.failure 500 "Failed to transcribe audio" (some "invalid api key")) ∧
    (some "model overloaded" : Option String) ≠ some "invalid api key" ∧
    transcribeAudioHandler
        (FetchOutcome.failure 500 "Failed to transcribe audio" (some "model overloaded")) =
      Except.error (TranscribeError.httpStatus 500) := by
  refine ⟨rfl, ?_, rfl⟩
  decide

/-- Claim C7 amended: on HTTP success the handler returns the parsed
transcript; on a non-success status it fails with an error carrying the
status only; on a transport-level failure it fails with the propagated
transport error; and the two failure shapes are distinguishable. -/
theorem transcription_error_taxonomy (st : Nat) (t m em : String)
    (d : Option String) :
    transcribeAudioHandler (FetchOutcome.success st t) = Except.ok t ∧
    transcribeAudioHandler (FetchOutcome.failure st em d) =
      Except.error (TranscribeError.httpStatus st) ∧
    transcribeAudioHandler (FetchOutcome.transportFail m) =
      Except.error (TranscribeError.transport m) ∧
    TranscribeError.httpStatus st ≠ TranscribeError.transport m :=
  ⟨rfl, rfl, rfl, fun hcontra => TranscribeError.noConfusion hcontra⟩

/-- Claim C8: the two post-stop branches are independent — the saved path and
save outcome do not depend on the transcription outcome, the transcription
attempt does not depend on the save outcome, and for every outcome of both
branches the tracks are cleaned up and the session leaves Stopping (streams
nulled, chunks cleared). -/
theorem stop_branches_are_independent (s : Session)
    (so so2 : Except WriteError (Option String))
    (tr tr2 : Except TranscribeError String) :
    (handleStop s so tr).savedPath = (handleStop s so tr2).savedPath ∧
    (handleStop s so tr).saveFailed = (handleStop s so tr2).saveFailed ∧
    (handleStop s so tr).transcriptionAttempted =
      (handleStop s so2 tr).transcriptionAttempted ∧
    (handleStop s so tr).tracksCleaned = true ∧
    (handleStop s so tr).finalSession =
      { s with videoStream := none, audioStream := none, recordedChunks := [] } :=
  ⟨rfl, rfl, rfl, rfl, rfl⟩

/-- Claim C9: the video payload and the audio payload of one recording are
built from the identical chunk sequence — they hold the same bytes and differ
only in the declared MIME type tag. -/
theorem dual_payload_same_bytes (s : Session)
    (so : Except WriteError (Option String)) (tr : Except TranscribeError String)
    (h : s.audioStream.isSome = true) :
    (handleStop s so tr).audioPayload = some (makeBlob s.recordedChunks "audio/webm") ∧
    (handleStop s so tr).videoPayload =
      makeBlob s.recordedChunks "video/webm; codecs=vp9" ∧
    (handleStop s so tr).audioPayload.map EncodedPayload.bytes =
      some ((handleStop s so tr).videoPayload.bytes) ∧
    (handleStop s so tr).videoPayload.mimeType = "video/webm; codecs=vp9" ∧
    (handleStop s so tr).audioPayload.map EncodedPayload.mimeType =
      some "audio/webm" := by
  cases h2 : s.audioStream with
  | none => rw [h2] at h; simp at h
  | some a => refine ⟨?_, rfl, ?_, rfl, ?_⟩ <;> simp [handleStop, h2, makeBlob]

/-- Witness for C9 at a concrete session with a live microphone stream. -/
theorem dual_payload_same_bytes_check :
    (handleStop audioSession (Except.ok (some "vid.webm"))
        (Except.ok "hello")).audioPayload =
      some (makeBlob [[65], [66]] "audio/webm") :=
  (dual_payload_same_bytes audioSession (Except.ok (some "vid.webm"))
    (Except.ok "hello") rfl).1

/-- Claim C10: during stop-handling the transcription request is attempted if
and only if the audio handle is present, while the persistence save is
attempted unconditionally. -/
theorem transcription_iff_audio_present (s : Session)
    (so : Except WriteError (Option String)) (tr : Except TranscribeError String) :
    (handleStop s so tr).transcriptionAttempted = s.audioStream.isSome ∧
    (handleStop s so tr).saveAttempted = true := by
  cases h : s.audioStream <;> simp [handleStop, h]

end ScreenRecorder
